import Mathlib

/-!
Verification of the AIDebate orchestration engine (`ai_debate.py`,
`ai_debate_gui.py`): a shallow embedding of the debate / optimization
workflows, the response acquirer, the backend resolver and the transcript
persistence, together with theorems settling the specification claims.

The underlying chat backends are modelled as an oracle
`Nat → Except String String`: call number `n` either succeeds with the raw
response text or fails with an error message, exactly the two outcomes the
Python `client.chat.completions.create` call can surface to the engine.
-/

namespace AIDebate

/-- One chat message, `{"role": ..., "content": ...}` in the source. -/
structure ChatMessage where
  role : String
  content : String
deriving DecidableEq

instance : Inhabited ChatMessage := ⟨⟨"", ""⟩⟩

/-- One transcript entry appended to `conversation` in the source. -/
structure Turn where
  role : String
  content : String
deriving DecidableEq

instance : Inhabited Turn := ⟨⟨"", ""⟩⟩

/-- One issued model call: the arguments of a `generate_response` invocation
(`model`, `temperature`, `messages`). -/
structure Call where
  model : String
  temp : ℚ
  messages : List ChatMessage
deriving DecidableEq

instance : Inhabited Call := ⟨⟨"", 0, []⟩⟩

/-- The constructor parameters of `AIDebate.__init__` that the orchestration
logic reads: the two model names and the two temperatures. -/
structure Config where
  model1 : String
  model2 : String
  temperature1 : ℚ
  temperature2 : ℚ
deriving DecidableEq

/-- Python `"".join(...)`: concatenation of a list of strings. -/
def concatAll : List String → String
  | [] => ""
  | s :: rest => s ++ concatAll rest

/-- Python `str.strip()`: drop leading and trailing whitespace. -/
def strip (s : String) : String :=
  ⟨((s.data.dropWhile Char.isWhitespace).reverse.dropWhile Char.isWhitespace).reverse⟩

/-- Python `str.startswith(p)`: character-wise prefix test. -/
def startswith (s p : String) : Bool :=
  p.data.isPrefixOf s.data

/-- The error string `generate_response` / `generate_response_stream` return
when the underlying API call raises (`ai_debate.py` lines 273 and 354). -/
def errorText (e : String) : String :=
  "无法生成回复，请检查API密钥或网络连接。错误详情: " ++ e

/-- `AIDebate.generate_response` on the outcome of the underlying client
call: on success the content is returned `.strip()`ped; any exception is
caught and converted into the `errorText` message — the method never raises
(`ai_debate.py` lines 275–354). -/
def generate_response : Except String String → String
  | Except.ok s => strip s
  | Except.error e => errorText e

/-- `AIDebate.generate_response_stream` (`ai_debate.py` lines 177–273),
abstracted over the chunk sequence the stream yields: a chunk is `none` when
its delta has no content attribute or the content is `None`, otherwise
`some fragment`.  Returns the final string together with the list of
fragments forwarded (written to stdout) in arrival order; the return value
is the `.strip()`ped join of the collected fragments. -/
def generate_response_stream (chunks : List (Option String)) : String × List String :=
  (strip (concatAll (chunks.filterMap id)), chunks.filterMap id)

/-- `AIDebateWrapper.generate_response_stream` (`ai_debate_gui.py` lines
312–356): same collection and forwarding (each fragment emitted via
`update_signal`), but the returned string is the plain join, not trimmed. -/
def gui_generate_response_stream (chunks : List (Option String)) : String × List String :=
  ((concatAll (chunks.filterMap id)), chunks.filterMap id)

/-- Python truthiness of the optional `api_base` string argument:
`None` and `""` are falsy. -/
def optionTruthy : Option String → Bool
  | none => false
  | some s => s != ""

/-- `AIDebate._determine_api_type` (`ai_debate.py` lines 90–124): explicit
base-URL override wins, otherwise an ordered prefix table on the model name,
with an OpenAI-compatible fallback. -/
def determine_api_type (model : String) (api_base : Option String) : String × Option String :=
  if optionTruthy api_base then ("custom", api_base)
  else if startswith model "gpt" then ("openai", none)
  else if startswith model "deepseek" then ("deepseek", some "https://api.deepseek.com/v1")
  else if startswith model "claude" then ("anthropic", some "https://api.anthropic.com/v1")
  else if startswith model "moonshot" then ("moonshot", some "https://api.moonshot.cn/v1")
  else if startswith model "glm" then ("chatglm", some "https://open.bigmodel.cn/api/paas/v4")
  else if startswith model "qwen" || startswith model "通义" then
    ("qwen", some "https://dashscope.aliyuncs.com/api/v1")
  else if startswith model "ernie" || startswith model "文心" then
    ("ernie", some "https://aip.baidubce.com/rpc/2.0/ai_custom/v1")
  else ("openai", none)

/-- The resolver as the spec's §4.1 words describe it, for comparison with
`determine_api_type`: non-empty explicit endpoint returns `(custom, it)`;
otherwise the ordered prefix table, first match wins; no match falls back to
`(openai, default)`. -/
def resolveSpec (modelId : String) (explicitEndpoint : Option String) : String × Option String :=
  let table : String × Option String :=
    if startswith modelId "gpt" then ("openai", none)
    else if startswith modelId "deepseek" then ("deepseek", some "https://api.deepseek.com/v1")
    else if startswith modelId "claude" then ("anthropic", some "https://api.anthropic.com/v1")
    else if startswith modelId "moonshot" then ("moonshot", some "https://api.moonshot.cn/v1")
    else if startswith modelId "glm" then ("chatglm", some "https://open.bigmodel.cn/api/paas/v4")
    else if startswith modelId "qwen" || startswith modelId "通义" then
      ("qwen", some "https://dashscope.aliyuncs.com/api/v1")
    else if startswith modelId "ernie" || startswith modelId "文心" then
      ("ernie", some "https://aip.baidubce.com/rpc/2.0/ai_custom/v1")
    else ("openai", none)
  match explicitEndpoint with
  | none => table
  | some e => if e = "" then table else ("custom", some e)

/-- The client-selection rule of `generate_response`,
`generate_response_stream` and the GUI wrapper's override: the call goes
through client 1 exactly when the requested model string equals `model1`,
otherwise through client 2 (`ai_debate.py` lines 207–212 and 308–313,
`ai_debate_gui.py` lines 319–322).  Client 1 was built from `api_key1` and
`base_url1`, client 2 from `api_key2` and `base_url2`. -/
def select_client (model1 : String) (model : String) : Nat :=
  if model = model1 then 1 else 2

-- Debate workflow (`AIDebate.run_debate`, `ai_debate.py` lines 356–502) ----

/-- System prompt of AI 1 in the debate (`ai_debate.py` line 378). -/
def deb_ai1_role : String :=
  "你是一个具有批判性思维的AI助手，名为\x27AI 1\x27。你擅长从多角度思考问题，但倾向于支持主流、传统观点。你应该为自己的观点辩护，同时批判另一个AI可能存在的逻辑漏洞。最终目标是通过辩论形成对问题的深入理解，得出全面的答案。"

/-- System prompt of AI 2 in the debate (`ai_debate.py` line 379). -/
def deb_ai2_role : String :=
  "你是一个具有创新思维的AI助手，名为\x27AI 2\x27。你擅长提出新颖的想法和视角，倾向于支持非传统、前沿观点。你应该为自己的观点辩护，同时批判另一个AI可能存在的局限性。最终目标是通过辩论形成对问题的深入理解，得出全面的答案。"

/-- Opening prompt to AI 1 (`ai_debate.py` line 389). -/
def opening1User (q : String) : String :=
  "请对以下问题提出你的观点和论据：" ++ q ++ "。请保持逻辑性和条理性，限制在300字以内。"

/-- Opening prompt to AI 2 (`ai_debate.py` line 403). -/
def opening2User (q : String) : String :=
  "请对以下问题提出你的观点和论据：" ++ q ++ "。尽量提供与主流观点不同的视角，保持逻辑性和条理性，限制在300字以内。"

/-- Rebuttal prompt (`ai_debate.py` lines 429 and 447, identical format):
{question, own current position, opponent position}. -/
def rebuttalUser (q mine theirs : String) : String :=
  "原始问题：" ++ q ++ "\n\n你的观点：\n" ++ mine ++ "\n\n对方观点：\n" ++ theirs ++
    "\n\n请针对对方观点中的弱点进行反驳，同时强化自己的论点。保持逻辑性和条理性，限制在250字以内。"

/-- Speaker label of AI 1's turns. -/
def roleAI1 (cfg : Config) : String := "AI 1 (" ++ cfg.model1 ++ ")"

/-- Speaker label of AI 2's turns. -/
def roleAI2 (cfg : Config) : String := "AI 2 (" ++ cfg.model2 ++ ")"

/-- Mutable state of `run_debate`: the growing `conversation`, the two
`aiN_current` position strings, plus bookkeeping of which underlying API
call comes next (`callIdx`) and the trace of issued calls. -/
structure DebSt where
  conv : List Turn
  ai1Current : String
  ai2Current : String
  callIdx : Nat
  calls : List Call

/-- One iteration of the debate's round loop (`ai_debate.py` lines 419–458):
AI 1 rebuts AI 2, `ai1_current` is updated, then AI 2 rebuts the fresh
rebuttal and `ai2_current` is updated. -/
def debStep (cfg : Config) (oracle : Nat → Except String String) (q : String)
    (s : DebSt) : DebSt :=
  let msgs1 : List ChatMessage :=
    [⟨"system", deb_ai1_role⟩, ⟨"user", rebuttalUser q s.ai1Current s.ai2Current⟩]
  let ai1_response := generate_response (oracle s.callIdx)
  let msgs2 : List ChatMessage :=
    [⟨"system", deb_ai2_role⟩, ⟨"user", rebuttalUser q s.ai2Current ai1_response⟩]
  let ai2_response := generate_response (oracle (s.callIdx + 1))
  { conv := s.conv ++ [⟨roleAI1 cfg, ai1_response⟩, ⟨roleAI2 cfg, ai2_response⟩]
    ai1Current := ai1_response
    ai2Current := ai2_response
    callIdx := s.callIdx + 2
    calls := s.calls ++ [⟨cfg.model1, cfg.temperature1, msgs1⟩, ⟨cfg.model2, cfg.temperature2, msgs2⟩] }

/-- The debate's `for i in range(rounds)` loop. -/
def debLoop (cfg : Config) (oracle : Nat → Except String String) (q : String) :
    Nat → DebSt → DebSt
  | 0, s => s
  | n + 1, s => debLoop cfg oracle q n (debStep cfg oracle q s)

/-- Synthesis-model choice of the debate workflow (`ai_debate.py` line 478). -/
def conclusion_model (model1 model2 : String) : String :=
  if startswith model1 "gpt-4" || startswith model1 "deepseek-reasoner" then model1 else model2

/-- The `debate_history` string assembled before the synthesis call
(`ai_debate.py` lines 466–475), reading rebuttals back out of the
conversation at indices `2*i+2` and `2*i+3`. -/
def debateHistory (q a1 a2 : String) (conv : List Turn) (rounds : Nat) : String :=
  (List.range rounds).foldl
    (fun h i =>
      h ++ "\n\n第 " ++ toString (i + 1) ++ " 轮辩论:" ++
        "\nAI 1 反驳: " ++ (conv.getD (2 * i + 2) default).content ++
        "\nAI 2 反驳: " ++ (conv.getD (2 * i + 3) default).content)
    ("问题: " ++ q ++ "\n\nAI 1 初始观点: " ++ a1 ++ "\n\nAI 2 初始观点: " ++ a2)

/-- System prompt of the debate synthesis call (`ai_debate.py` line 481). -/
def concSystem : String :=
  "你是一个公正、全面的总结者。你的任务是分析两个AI之间的辩论，找出关键洞见，并提供一个平衡、综合的答案。通过整合不同视角，你应当为用户提供最全面客观的解答。"

/-- User prompt of the debate synthesis call (`ai_debate.py` line 482). -/
def concUser (q hist : String) : String :=
  "以下是两个AI围绕问题\"" ++ q ++ "\"进行的辩论。请分析双方的观点和论据，然后提供一个全面的答案，指出最有价值的见解。不要简单重复双方观点，而是真正整合它们的精华部分，为用户提供最佳解答。\n\n" ++ hist

/-- The value `run_debate` returns (`initial_question`, `conversation`,
`final_answer`), instrumented with the trace of issued model calls. -/
structure DebateRun where
  initial_question : String
  conversation : List Turn
  final_answer : String
  calls : List Call

/-- `AIDebate.run_debate` (`ai_debate.py` lines 356–502): two openings, the
round loop, then the synthesis call at fixed temperature `0.6` on the
conclusion model; the synthesis turn is appended with role `最终结论`. -/
def run_debate (cfg : Config) (oracle : Nat → Except String String)
    (q : String) (rounds : Nat) : DebateRun :=
  let msgs1 : List ChatMessage := [⟨"system", deb_ai1_role⟩, ⟨"user", opening1User q⟩]
  let ai1_initial := generate_response (oracle 0)
  let msgs2 : List ChatMessage := [⟨"system", deb_ai2_role⟩, ⟨"user", opening2User q⟩]
  let ai2_initial := generate_response (oracle 1)
  let s0 : DebSt :=
    { conv := [⟨roleAI1 cfg, ai1_initial⟩, ⟨roleAI2 cfg, ai2_initial⟩]
      ai1Current := ai1_initial
      ai2Current := ai2_initial
      callIdx := 2
      calls := [⟨cfg.model1, cfg.temperature1, msgs1⟩, ⟨cfg.model2, cfg.temperature2, msgs2⟩] }
  let s := debLoop cfg oracle q rounds s0
  let hist := debateHistory q ai1_initial ai2_initial s.conv rounds
  let cm := conclusion_model cfg.model1 cfg.model2
  let conclusion_messages : List ChatMessage := [⟨"system", concSystem⟩, ⟨"user", concUser q hist⟩]
  let conclusion := generate_response (oracle s.callIdx)
  { initial_question := q
    conversation := s.conv ++ [⟨"最终结论", conclusion⟩]
    final_answer := conclusion
    calls := s.calls ++ [⟨cm, 0.6, conclusion_messages⟩] }

-- Optimization workflow (`AIDebate.run_optimization`, lines 558–693) -------

/-- System prompt of the analyst (`ai_debate.py` line 580). -/
def opt_ai1_role : String :=
  "你是一个具有分析能力的AI助手，名为\x27分析师\x27。你擅长深入分析问题的本质，发现潜在盲点和假设。你的任务是分析问题并提出有见解的初步答案，同时指出答案可能存在的不足。最终目标是帮助用户获得最佳答案。"

/-- System prompt of the optimizer (`ai_debate.py` line 581). -/
def opt_ai2_role : String :=
  "你是一个具有创造性的AI助手，名为\x27优化师\x27。你擅长基于他人的分析改进答案。你的任务是吸收分析师的意见，并优化答案使其更加全面、准确和有深度。最终目标是帮助用户获得最佳答案。"

/-- Initial-analysis prompt (`ai_debate.py` line 593). -/
def initialUser (q : String) : String :=
  "请分析以下问题并提供初步答案，同时指出你的答案可能存在的不足或局限性：\n\n" ++ q ++
    "\n\n请先分析问题的关键点，然后给出初步答案，最后指出答案中可能存在的盲点或局限性。限制在300字以内。"

/-- Optimize-step prompt (`ai_debate.py` line 613): built from the *current*
`current_question` field and the analyst's latest analysis. -/
def optimizeUser (current_question ai1_analysis : String) : String :=
  "原始问题：\n" ++ current_question ++ "\n\n分析师的分析与初步答案：\n" ++ ai1_analysis ++
    "\n\n请基于上述分析，提供一个优化后的答案，使其更加全面、准确和有深度。限制在300字以内。"

/-- Critique-step prompt (`ai_debate.py` line 631): built from the current
`current_question` field and the latest optimized answer. -/
def critiqueUser (current_question ai2_optimization : String) : String :=
  "原始问题：\n" ++ current_question ++ "\n\n当前优化答案：\n" ++ ai2_optimization ++
    "\n\n请分析这个答案的不足之处，指出可以进一步改进的方向。限制在250字以内。"

/-- Speaker label of analyst turns. -/
def roleAnalyst (cfg : Config) : String := "分析师 (" ++ cfg.model1 ++ ")"

/-- Speaker label of optimizer turns. -/
def roleOptimizer (cfg : Config) : String := "优化师 (" ++ cfg.model2 ++ ")"

/-- Mutable state of `run_optimization`: conversation, the
`current_question` variable (overwritten with the latest optimized answer at
the end of every non-final iteration, `ai_debate.py` line 643), the
analyst's latest output `ai1_analysis`, and call bookkeeping. -/
structure OptSt where
  conv : List Turn
  currentQuestion : String
  ai1Analysis : String
  callIdx : Nat
  calls : List Call

/-- One iteration `i` of the optimization loop (`ai_debate.py` lines
605–646): the optimize sub-step always runs; the critique sub-step runs only
when `i < iterations - 1`, and then also overwrites `current_question` with
this iteration's optimized answer. -/
def optStep (cfg : Config) (oracle : Nat → Except String String) (total i : Nat)
    (s : OptSt) : OptSt :=
  let msgs2 : List ChatMessage :=
    [⟨"system", opt_ai2_role⟩, ⟨"user", optimizeUser s.currentQuestion s.ai1Analysis⟩]
  let ai2_optimization := generate_response (oracle s.callIdx)
  let s1 : OptSt :=
    { s with
      conv := s.conv ++ [⟨roleOptimizer cfg, ai2_optimization⟩]
      callIdx := s.callIdx + 1
      calls := s.calls ++ [⟨cfg.model2, cfg.temperature2, msgs2⟩] }
  if i < total - 1 then
    let msgs1 : List ChatMessage :=
      [⟨"system", opt_ai1_role⟩, ⟨"user", critiqueUser s1.currentQuestion ai2_optimization⟩]
    let ai1_analysis := generate_response (oracle s1.callIdx)
    { s1 with
      conv := s1.conv ++ [⟨roleAnalyst cfg, ai1_analysis⟩]
      ai1Analysis := ai1_analysis
      currentQuestion := ai2_optimization
      callIdx := s1.callIdx + 1
      calls := s1.calls ++ [⟨cfg.model1, cfg.temperature1, msgs1⟩] }
  else s1

/-- The optimization's `for i in range(iterations)` loop, processed over the
list of iteration indices. -/
def optLoop (cfg : Config) (oracle : Nat → Except String String) (total : Nat) :
    List Nat → OptSt → OptSt
  | [], s => s
  | i :: rest, s => optLoop cfg oracle total rest (optStep cfg oracle total i s)

/-- Synthesis-model choice of the optimization workflow (`ai_debate.py`
line 669) — note the extra `claude-3` prefix absent from the debate's rule. -/
def final_model (model1 model2 : String) : String :=
  if startswith model1 "gpt-4" || startswith model1 "claude-3" || startswith model1 "deepseek-reasoner"
  then model1 else model2

/-- The `optimization_history` string assembled before the final synthesis
call (`ai_debate.py` lines 654–666). -/
def optimizationHistory (q : String) (conv : List Turn) (iterations : Nat) : String :=
  (List.range iterations).foldl
    (fun h i =>
      if i < iterations - 1 then
        h ++ "\n\n第 " ++ toString (i + 1) ++ " 轮优化:" ++
          "\n优化师答案: " ++ (conv.getD (2 * i + 1) default).content ++
          "\n分析师反馈: " ++ (conv.getD (2 * i + 2) default).content
      else
        h ++ "\n\n最终轮优化:" ++
          "\n优化师答案: " ++ (conv.getD (2 * i + 1) default).content)
    ("原始问题: " ++ q ++ "\n\n分析师初始分析与答案: " ++ (conv.getD 0 default).content)

/-- System prompt of the final-synthesis call (`ai_debate.py` line 672). -/
def finalSystem : String :=
  "你是一个精通解答问题的AI助手。你的任务是整合之前的所有分析和优化，提供一个最终的、综合的最佳答案。需要确保答案直接明确地回应用户的问题，并且全面、准确、有深度。"

/-- User prompt of the final-synthesis call (`ai_debate.py` line 673). -/
def finalUser (q hist : String) : String :=
  "以下是关于一个问题的多轮分析和答案优化过程。请基于所有分析和优化建议，提供一个最终的优化答案。答案应该直接解决用户的问题核心，并且比之前的任何答案都更加全面、准确和有深度。\n\n原始问题：\n" ++ q ++
    "\n\n分析与优化过程：\n" ++ hist ++ "\n\n请提供最终优化答案，确保直接解决问题核心，提供最高质量的回应。"

/-- The value `run_optimization` returns, instrumented with the call trace. -/
structure OptRun where
  initial_question : String
  conversation : List Turn
  final_result : String
  calls : List Call

/-- State after the initial-analysis phase (`ai_debate.py` lines 585–602):
one analyst turn, `current_question` still the original question. -/
def optInitState (cfg : Config) (oracle : Nat → Except String String) (q : String) : OptSt :=
  let msgs1 : List ChatMessage := [⟨"system", opt_ai1_role⟩, ⟨"user", initialUser q⟩]
  let ai1_analysis := generate_response (oracle 0)
  { conv := [⟨roleAnalyst cfg, ai1_analysis⟩]
    currentQuestion := q
    ai1Analysis := ai1_analysis
    callIdx := 1
    calls := [⟨cfg.model1, cfg.temperature1, msgs1⟩] }

/-- `AIDebate.run_optimization` (`ai_debate.py` lines 558–693). -/
def run_optimization (cfg : Config) (oracle : Nat → Except String String)
    (q : String) (iterations : Nat) : OptRun :=
  let s := optLoop cfg oracle iterations (List.range iterations) (optInitState cfg oracle q)
  let hist := optimizationHistory q s.conv iterations
  let fm := final_model cfg.model1 cfg.model2
  let final_messages : List ChatMessage := [⟨"system", finalSystem⟩, ⟨"user", finalUser q hist⟩]
  let final_result := generate_response (oracle s.callIdx)
  { initial_question := q
    conversation := s.conv ++ [⟨"最终优化答案", final_result⟩]
    final_result := final_result
    calls := s.calls ++ [⟨fm, 0.6, final_messages⟩] }

-- Persistence (`save_debate` lines 530–556, `save_optimization` 721–747) ---

/-- The per-turn body `save_debate` writes: every turn as
`role:\ncontent\n\n`, with turns labelled `最终结论` skipped (`continue`). -/
def debateBody : List Turn → String
  | [] => ""
  | m :: rest =>
      (if m.role = "最终结论" then "" else m.role ++ ":\n" ++ m.content ++ "\n\n") ++ debateBody rest

/-- The full text `save_debate` writes, in write order: header, body of
non-final turns, then the dedicated final-conclusion section. -/
def save_debate_content (r : DebateRun) : String :=
  "辩论主题: " ++ r.initial_question ++ "\n\n" ++ "===== 辩论过程 =====\n\n" ++
    debateBody r.conversation ++ "===== 最终结论 =====\n\n" ++ r.final_answer

/-- `AIDebate.save_debate`: writes `save_debate_content` to the given
filename; modelled as the (filename, written bytes) pair. -/
def save_debate (r : DebateRun) (filename : String) : String × String :=
  (filename, save_debate_content r)

/-- The per-turn body `save_optimization` writes, skipping `最终优化答案`. -/
def optBody : List Turn → String
  | [] => ""
  | m :: rest =>
      (if m.role = "最终优化答案" then "" else m.role ++ ":\n" ++ m.content ++ "\n\n") ++ optBody rest

/-- The full text `save_optimization` writes. -/
def save_optimization_content (r : OptRun) : String :=
  "待解答问题: " ++ r.initial_question ++ "\n\n" ++ "===== 答案优化过程 =====\n\n" ++
    optBody r.conversation ++ "===== 最终优化答案 =====\n\n" ++ r.final_result

/-- `AIDebate.save_optimization` as the (filename, written bytes) pair. -/
def save_optimization (r : OptRun) (filename : String) : String × String :=
  (filename, save_optimization_content r)

-- Substring test and concrete fixtures --------------------------------------

/-- `charsContain pat l` holds when `pat` occurs contiguously in `l`. -/
def charsContain (pat : List Char) : List Char → Bool
  | [] => pat.isPrefixOf []
  | c :: rest => pat.isPrefixOf (c :: rest) || charsContain pat rest

/-- Python `pat in s`: contiguous substring occurrence. -/
def strContains (s pat : String) : Bool := charsContain pat.data s.data

/-- A stub backend: call `n` succeeds with `"S<n>"`. -/
def okOracle : Nat → Except String String := fun n => Except.ok ("S" ++ toString n)

/-- Configuration used in concrete debate evaluations. -/
def cfgD : Config := ⟨"gpt-3.5-turbo", "glm-4", 0.7, 0.7⟩

/-- A backend that fails call number 5 — the second rebuttal of round 2 of a
3-round debate (calls 0,1 openings; 2,3 round 1; 4,5 round 2) — with a rate
limit error, and succeeds otherwise. -/
def rateLimitOracle : Nat → Except String String := fun n =>
  if n = 5 then Except.error "Error code: 429 - Rate limit reached"
  else Except.ok ("S" ++ toString n)

/-- Participant 1 on a flagship `claude-3` model, participant 2 not. -/
def cfgC : Config := ⟨"claude-3-opus", "glm-4", 0.7, 0.7⟩

/-- Participant 1 configured with temperature `0.5`, below the synthesis
call's fixed `0.6`. -/
def cfgT : Config := ⟨"gpt-3.5-turbo", "glm-4", 0.5, 0.7⟩

/-- Both participants configured with the same model identifier. -/
def cfgSame : Config := ⟨"glm-4", "glm-4", 0.7, 0.7⟩

/-- Stub backend for the optimization counterexample: initial analysis
`"A1"`, first optimized answer `"O1"`, first critique `"K1"`, second
optimized answer `"O2"`, final answer `"F"`. -/
def optOracle : Nat → Except String String := fun n =>
  Except.ok (if n = 0 then "A1" else if n = 1 then "O1" else if n = 2 then "K1"
             else if n = 3 then "O2" else "F")

/-- The default temperature of both participants (`__init__` defaults and
the `--temp1`/`--temp2` argparse defaults). -/
def defaultTemperature : ℚ := 0.7

-- Helper lemmas -------------------------------------------------------------

theorem string_empty_append (s : String) : "" ++ s = s := by
  cases s
  rfl

theorem lastAppend {α : Type _} (l : List α) (a : α) : (l ++ [a]).getLast? = some a := by
  simp

theorem countP_range_lt (n m : Nat) :
    (List.range n).countP (fun i => decide (i < m)) = min n m := by
  induction n with
  | zero => simp
  | succ n ih =>
    rw [List.range_succ, List.countP_append, ih]
    by_cases h : n < m <;> simp [h] <;> omega

theorem debLoop_conv_roles (cfg : Config) (oracle : Nat → Except String String) (q : String) :
    ∀ (n : Nat) (s : DebSt),
      ((debLoop cfg oracle q n s).conv).map Turn.role
        = s.conv.map Turn.role ++ (List.replicate n [roleAI1 cfg, roleAI2 cfg]).flatten := by
  intro n
  induction n with
  | zero => intro s; simp [debLoop]
  | succ n ih =>
    intro s
    rw [debLoop, ih]
    simp [debStep, List.replicate_succ]

theorem debLoop_conv_len (cfg : Config) (oracle : Nat → Except String String) (q : String) :
    ∀ (n : Nat) (s : DebSt),
      (debLoop cfg oracle q n s).conv.length = s.conv.length + 2 * n := by
  intro n
  induction n with
  | zero => intro s; simp [debLoop]
  | succ n ih =>
    intro s
    rw [debLoop, ih]
    simp [debStep]
    omega

theorem debLoop_calls_len (cfg : Config) (oracle : Nat → Except String String) (q : String) :
    ∀ (n : Nat) (s : DebSt),
      (debLoop cfg oracle q n s).calls.length = s.calls.length + 2 * n := by
  intro n
  induction n with
  | zero => intro s; simp [debLoop]
  | succ n ih =>
    intro s
    rw [debLoop, ih]
    simp [debStep]
    omega

theorem debLoop_calls_models (cfg : Config) (oracle : Nat → Except String String) (q : String) :
    ∀ (n : Nat) (s : DebSt) (c : Call),
      c ∈ (debLoop cfg oracle q n s).calls →
        c ∈ s.calls ∨ c.model = cfg.model1 ∨ c.model = cfg.model2 := by
  intro n
  induction n with
  | zero =>
    intro s c h
    exact Or.inl h
  | succ n ih =>
    intro s c h
    rw [debLoop] at h
    rcases ih _ c h with h' | h' | h'
    · simp only [debStep, List.mem_append, List.mem_cons, List.mem_singleton,
        List.not_mem_nil, or_false] at h'
      rcases h' with h' | h' | h'
      · exact Or.inl h'
      · right; left; rw [h']
      · right; right; rw [h']
    · exact Or.inr (Or.inl h')
    · exact Or.inr (Or.inr h')

theorem run_debate_calls_models (cfg : Config) (oracle : Nat → Except String String)
    (q : String) (rounds : Nat) :
    ∀ c ∈ (run_debate cfg oracle q rounds).calls,
      c.model = cfg.model1 ∨ c.model = cfg.model2 := by
  intro c hc
  simp only [run_debate, List.mem_append, List.mem_singleton] at hc
  rcases hc with hc | hc
  · rcases debLoop_calls_models cfg oracle q rounds _ c hc with h | h | h
    · simp only [List.mem_cons, List.mem_singleton, List.not_mem_nil, or_false] at h
      rcases h with h | h
      · left; rw [h]
      · right; rw [h]
    · exact Or.inl h
    · exact Or.inr h
  · rw [hc]
    unfold conclusion_model
    split
    · exact Or.inl rfl
    · exact Or.inr rfl

theorem optLoop_conv_roles (cfg : Config) (oracle : Nat → Except String String) (total : Nat) :
    ∀ (L : List Nat) (s : OptSt),
      ((optLoop cfg oracle total L s).conv).map Turn.role
        = s.conv.map Turn.role
            ++ (L.map (fun i =>
                  [roleOptimizer cfg] ++ if i < total - 1 then [roleAnalyst cfg] else [])).flatten := by
  intro L
  induction L with
  | nil => intro s; simp [optLoop]
  | cons i rest ih =>
    intro s
    rw [optLoop, ih]
    by_cases h : i < total - 1 <;> simp [optStep, h]

theorem optLoop_conv_len (cfg : Config) (oracle : Nat → Except String String) (total : Nat) :
    ∀ (L : List Nat) (s : OptSt),
      (optLoop cfg oracle total L s).conv.length
        = s.conv.length + L.length + L.countP (fun i => decide (i < total - 1)) := by
  intro L
  induction L with
  | nil => intro s; simp [optLoop]
  | cons i rest ih =>
    intro s
    rw [optLoop, ih]
    by_cases h : i < total - 1 <;> simp [optStep, h, List.countP_cons] <;> omega

theorem optLoop_calls_len (cfg : Config) (oracle : Nat → Except String String) (total : Nat) :
    ∀ (L : List Nat) (s : OptSt),
      (optLoop cfg oracle total L s).calls.length
        = s.calls.length + L.length + L.countP (fun i => decide (i < total - 1)) := by
  intro L
  induction L with
  | nil => intro s; simp [optLoop]
  | cons i rest ih =>
    intro s
    rw [optLoop, ih]
    by_cases h : i < total - 1 <;> simp [optStep, h, List.countP_cons] <;> omega

theorem optLoop_calls_models (cfg : Config) (oracle : Nat → Except String String) (total : Nat) :
    ∀ (L : List Nat) (s : OptSt) (c : Call),
      c ∈ (optLoop cfg oracle total L s).calls →
        c ∈ s.calls ∨ c.model = cfg.model1 ∨ c.model = cfg.model2 := by
  intro L
  induction L with
  | nil =>
    intro s c h
    exact Or.inl h
  | cons i rest ih =>
    intro s c h
    rw [optLoop] at h
    rcases ih _ c h with h' | h' | h'
    · by_cases hi : i < total - 1
      · simp only [optStep, hi, if_true, List.mem_append, List.mem_singleton] at h'
        rcases h' with (h' | h') | h'
        · exact Or.inl h'
        · right; right; rw [h']
        · right; left; rw [h']
      · simp only [optStep, hi, if_false, List.mem_append, List.mem_singleton] at h'
        rcases h' with h' | h'
        · exact Or.inl h'
        · right; right; rw [h']
    · exact Or.inr (Or.inl h')
    · exact Or.inr (Or.inr h')

theorem run_optimization_calls_models (cfg : Config) (oracle : Nat → Except String String)
    (q : String) (iterations : Nat) :
    ∀ c ∈ (run_optimization cfg oracle q iterations).calls,
      c.model = cfg.model1 ∨ c.model = cfg.model2 := by
  intro c hc
  simp only [run_optimization, List.mem_append, List.mem_singleton] at hc
  rcases hc with hc | hc
  · rcases optLoop_calls_models cfg oracle iterations _ _ c hc with h | h | h
    · simp only [optInitState, List.mem_singleton] at h
      left; rw [h]
    · exact Or.inl h
    · exact Or.inr h
  · rw [hc]
    unfold final_model
    split
    · exact Or.inl rfl
    · exact Or.inr rfl

theorem debateBody_skips_final (l : List Turn) :
    debateBody (l.filter (fun m => m.role != "最终结论")) = debateBody l := by
  induction l with
  | nil => rfl
  | cons m rest ih =>
    by_cases h : m.role = "最终结论"
    · simp [List.filter_cons, h, debateBody, ih, string_empty_append]
    · simp [List.filter_cons, h, debateBody, ih]

theorem optBody_skips_final (l : List Turn) :
    optBody (l.filter (fun m => m.role != "最终优化答案")) = optBody l := by
  induction l with
  | nil => rfl
  | cons m rest ih =>
    by_cases h : m.role = "最终优化答案"
    · simp [List.filter_cons, h, optBody, ih, string_empty_append]
    · simp [List.filter_cons, h, optBody, ih]

theorem concatAll_filter_ne_empty (l : List String) :
    concatAll (l.filter (fun s => s != "")) = concatAll l := by
  induction l with
  | nil => rfl
  | cons s rest ih =>
    by_cases h : s = ""
    · subst h
      simpa [concatAll] using ih
    · simp [concatAll, h, ih]

-- Claim C5 ------------------------------------------------------------------

/-- C5: the backend resolver is a total, deterministic function agreeing
everywhere with the spec's description: a non-empty explicit endpoint
override yields `(custom, that endpoint)` regardless of the model name;
otherwise the ordered prefix table
(gpt→openai, deepseek, claude→anthropic, moonshot, glm→chatglm,
qwen/通义, ernie/文心) applies, and on no match the result is the
`(openai, default)` fallback.  Being a Lean function, it always returns a
value and never fails. -/
theorem C5_resolver_matches_spec :
    ∀ model api_base, determine_api_type model api_base = resolveSpec model api_base := by
  intro m b
  cases b with
  | none => rfl
  | some e =>
    by_cases h : e = "" <;>
      simp [determine_api_type, resolveSpec, optionTruthy, h]

-- Claim C2 ------------------------------------------------------------------

/-- C2 counterexample: for the one-fragment stream `[" a"]`, the string the
CLI streaming acquirer returns (`"a"`, after `.strip()`) is not exactly the
concatenation of the non-empty fragments forwarded to the observer
(`" a"`) — the claimed exact equality fails. -/
theorem C2_counterexample :
    (generate_response_stream [some " a"]).1 ≠
      concatAll (((generate_response_stream [some " a"]).2).filter (fun s => s != "")) := by
  decide

/-- C2 amended: for every fragment sequence, the CLI streaming acquirer
returns the *trimmed* concatenation of the non-empty fragments forwarded to
the observer, while the GUI wrapper's streaming acquirer returns that
concatenation exactly (untrimmed); in both, the empty fragment sequence
yields the empty string, not an error. -/
theorem C2_stream_concatenation :
    ∀ chunks : List (Option String),
      (generate_response_stream chunks).1 =
        strip (concatAll (((generate_response_stream chunks).2).filter (fun s => s != ""))) ∧
      (gui_generate_response_stream chunks).1 =
        concatAll (((gui_generate_response_stream chunks).2).filter (fun s => s != "")) ∧
      generate_response_stream [] = ("", []) ∧
      gui_generate_response_stream [] = ("", []) := by
  intro chunks
  refine ⟨?_, ?_, rfl, rfl⟩
  · simp [generate_response_stream, concatAll_filter_ne_empty]
  · simp [gui_generate_response_stream, concatAll_filter_ne_empty]


-- Claim C1 ------------------------------------------------------------------

/-- C1 counterexample: in the claim's own scenario — a `RateLimitError` on
the second rebuttal of round 2 of a 3-round debate — the session does *not*
abort: all `2 + 2*3 + 1 = 9` calls are issued (including the Synthesis call,
on the conclusion model `glm-4` at temperature `0.6`), the transcript is
complete with the failed turn carrying the error-message string as content,
the final turn is the synthesis turn, and the result is an ordinary
completed result whose `final_answer` is the synthesis output. -/
theorem C1_counterexample :
    (run_debate cfgD rateLimitOracle "Q" 3).conversation.length = 9 ∧
    (run_debate cfgD rateLimitOracle "Q" 3).calls.length = 9 ∧
    ((run_debate cfgD rateLimitOracle "Q" 3).conversation.getD 5 default).content
      = errorText "Error code: 429 - Rate limit reached" ∧
    ((run_debate cfgD rateLimitOracle "Q" 3).conversation.getD 8 default).role = "最终结论" ∧
    ((run_debate cfgD rateLimitOracle "Q" 3).calls.getD 8 default).model = "glm-4" ∧
    ((run_debate cfgD rateLimitOracle "Q" 3).calls.getD 8 default).temp = 0.6 ∧
    (run_debate cfgD rateLimitOracle "Q" 3).final_answer = "S8" := by
  refine ⟨?_, ?_, ?_, ?_, ?_, ?_, ?_⟩
  · decide
  · decide
  · decide
  · decide
  · decide
  · rfl
  · decide

/-- C1 amended: a turn-level model-call failure never aborts a debate
session.  `generate_response` converts any failure into the `errorText`
message used as that turn's content, so for *every* oracle — failing calls
included — the session runs to completion: the transcript always has
`2 + 2*rounds + 1` turns ending in the synthesis turn, all
`2 + 2*rounds + 1` calls (the Synthesis call included) are issued, and the
completed result is returned (and hence persisted) exactly as on a
fully-successful run. -/
theorem C1_failure_does_not_abort :
    ∀ (cfg : Config) (oracle : Nat → Except String String) (q : String) (rounds : Nat),
      (run_debate cfg oracle q rounds).conversation.length = 2 + 2 * rounds + 1 ∧
      (run_debate cfg oracle q rounds).calls.length = 2 + 2 * rounds + 1 ∧
      ((run_debate cfg oracle q rounds).calls.getLast?).map Call.model
        = some (conclusion_model cfg.model1 cfg.model2) ∧
      ((run_debate cfg oracle q rounds).conversation.getLast?).map Turn.role = some "最终结论" ∧
      (∀ e, generate_response (Except.error e) = errorText e) := by
  intro cfg oracle q r
  refine ⟨?_, ?_, ?_, ?_, fun e => rfl⟩
  · simp [run_debate, debLoop_conv_len]
  · simp [run_debate, debLoop_calls_len]
  · simp [run_debate, lastAppend]
  · simp [run_debate, lastAppend]

-- Claim C3 ------------------------------------------------------------------

/-- C3: for every `rounds ≥ 1` (and in fact for every oracle), the completed
debate transcript has length `2 + 2*rounds + 1` and its turns are, in
order: AI 1's opening, AI 2's opening, then per round AI 1's rebuttal
followed by AI 2's rebuttal, then the final synthesis turn `最终结论`. -/
theorem C3_debate_transcript (cfg : Config) (oracle : Nat → Except String String)
    (q : String) (rounds : Nat) (hr : 1 ≤ rounds) :
    (run_debate cfg oracle q rounds).conversation.length = 2 + 2 * rounds + 1 ∧
    (run_debate cfg oracle q rounds).conversation.map Turn.role
      = [roleAI1 cfg, roleAI2 cfg]
          ++ (List.replicate rounds [roleAI1 cfg, roleAI2 cfg]).flatten
          ++ ["最终结论"] := by
  constructor
  · simp [run_debate, debLoop_conv_len]
  · simp [run_debate, debLoop_conv_roles]

/-- C3 witness at one concrete round. -/
theorem C3_witness :
    (run_debate cfgD okOracle "Q" 1).conversation.length = 2 + 2 * 1 + 1 ∧
    (run_debate cfgD okOracle "Q" 1).conversation.map Turn.role
      = [roleAI1 cfgD, roleAI2 cfgD]
          ++ (List.replicate 1 [roleAI1 cfgD, roleAI2 cfgD]).flatten
          ++ ["最终结论"] :=
  C3_debate_transcript cfgD okOracle "Q" 1 (by norm_num)

-- Claim C4 ------------------------------------------------------------------

/-- C4: for every `iterations ≥ 1`, the completed optimization transcript
has length `1 + iterations + (iterations - 1) + 1`, and consists of the
analyst's initial-analysis turn, then per iteration one optimizer turn
followed — on non-final iterations only — by one analyst critique turn (the
critique is skipped entirely on the final iteration), then the final
synthesis turn `最终优化答案`. -/
theorem C4_optimization_transcript (cfg : Config) (oracle : Nat → Except String String)
    (q : String) (iterations : Nat) (hr : 1 ≤ iterations) :
    (run_optimization cfg oracle q iterations).conversation.length
      = 1 + iterations + (iterations - 1) + 1 ∧
    (run_optimization cfg oracle q iterations).conversation.map Turn.role
      = [roleAnalyst cfg]
          ++ ((List.range iterations).map (fun i =>
                [roleOptimizer cfg] ++ if i < iterations - 1 then [roleAnalyst cfg] else [])).flatten
          ++ ["最终优化答案"] := by
  constructor
  · simp [run_optimization, optLoop_conv_len, optInitState, countP_range_lt]
  · simp [run_optimization, optLoop_conv_roles, optInitState]

/-- C4 witness at two concrete iterations. -/
theorem C4_witness :
    (run_optimization cfgD okOracle "Q" 2).conversation.length = 1 + 2 + (2 - 1) + 1 ∧
    (run_optimization cfgD okOracle "Q" 2).conversation.map Turn.role
      = [roleAnalyst cfgD]
          ++ ((List.range 2).map (fun i =>
                [roleOptimizer cfgD] ++ if i < 2 - 1 then [roleAnalyst cfgD] else [])).flatten
          ++ ["最终优化答案"] :=
  C4_optimization_transcript cfgD okOracle "Q" 2 (by norm_num)

-- Claim C6 ------------------------------------------------------------------

/-- C6 counterexample: for participant 1 = `claude-3-opus` (a flagship-tier
identifier) and participant 2 = `glm-4`, the debate workflow's synthesis
call uses participant 2's model while the optimization workflow's uses
participant 1's — the two workflows do *not* apply the same selection
rule. -/
theorem C6_counterexample :
    ((run_debate cfgC okOracle "Q" 1).calls.getLast?).map Call.model = some "glm-4" ∧
    ((run_optimization cfgC okOracle "Q" 1).calls.getLast?).map Call.model
      = some "claude-3-opus" := by
  constructor
  · decide
  · decide

/-- C6 amended: in each workflow the synthesis model is selected
deterministically from participant 1's identifier alone — the debate uses
participant 1's model iff it starts with `gpt-4` or `deepseek-reasoner`,
the optimization iff it starts with `gpt-4`, `claude-3` or
`deepseek-reasoner` — and participant 2's model is used otherwise,
regardless of participant 2's identifier (so swapping which participant
holds the recognized identifier swaps the selection, within each workflow).
The two workflows' recognized prefix lists differ: the optimization
additionally recognizes `claude-3`. -/
theorem C6_synthesis_model_selection :
    ∀ (cfg : Config) (oracle : Nat → Except String String) (q : String) (n : Nat)
      (m1 m2 : String),
      ((run_debate cfg oracle q n).calls.getLast?).map Call.model
        = some (conclusion_model cfg.model1 cfg.model2) ∧
      ((run_optimization cfg oracle q n).calls.getLast?).map Call.model
        = some (final_model cfg.model1 cfg.model2) ∧
      conclusion_model m1 m2
        = (if startswith m1 "gpt-4" || startswith m1 "deepseek-reasoner" then m1 else m2) ∧
      final_model m1 m2
        = (if startswith m1 "gpt-4" || startswith m1 "claude-3"
              || startswith m1 "deepseek-reasoner" then m1 else m2) := by
  intro cfg oracle q n m1 m2
  refine ⟨?_, ?_, rfl, rfl⟩
  · simp [run_debate, lastAppend]
  · simp [run_optimization, lastAppend]

-- Claim C7 ------------------------------------------------------------------

/-- C7 counterexample: in a 2-iteration optimization run on question `Q0`
(stub responses: analysis `A1`, first optimized answer `O1`, critique `K1`),
the second iteration's Optimize-step prompt is built from `O1` — the
previous optimized answer, which by then has overwritten
`current_question` — and the critique `K1`; it does not contain the
original question `Q0` anywhere. -/
theorem C7_counterexample :
    ((run_optimization cfgD optOracle "Q0" 2).calls.getD 3 default).messages
      = [⟨"system", opt_ai2_role⟩, ⟨"user", optimizeUser "O1" "K1"⟩] ∧
    strContains (optimizeUser "O1" "K1") "Q0" = false ∧
    strContains (optimizeUser "O1" "K1") "O1" = true := by
  refine ⟨?_, ?_, ?_⟩
  · decide
  · decide
  · decide

/-- C7 amended: every Optimize-step prompt is built from the state's
`current_question` field together with the analyst's latest analysis, and
every non-final Critique-step prompt from `current_question` together with
the just-produced optimized answer; `current_question` holds the original
question when the loop starts but is overwritten with the iteration's
optimized answer at the end of every non-final iteration — so only the
first iteration's prompts contain the original question, and every later
iteration's prompts carry the previous iteration's optimized answer in its
place. -/
theorem C7_optimization_prompt_sources :
    ∀ (cfg : Config) (oracle : Nat → Except String String) (q : String)
      (total i : Nat) (s : OptSt),
      (optInitState cfg oracle q).currentQuestion = q ∧
      (optInitState cfg oracle q).ai1Analysis = generate_response (oracle 0) ∧
      (optStep cfg oracle total i s).calls
        = s.calls
            ++ [⟨cfg.model2, cfg.temperature2,
                  [⟨"system", opt_ai2_role⟩,
                   ⟨"user", optimizeUser s.currentQuestion s.ai1Analysis⟩]⟩]
            ++ (if i < total - 1 then
                  [⟨cfg.model1, cfg.temperature1,
                    [⟨"system", opt_ai1_role⟩,
                     ⟨"user", critiqueUser s.currentQuestion
                        (generate_response (oracle s.callIdx))⟩]⟩]
                else []) ∧
      (optStep cfg oracle total i s).currentQuestion
        = (if i < total - 1 then generate_response (oracle s.callIdx) else s.currentQuestion) := by
  intro cfg oracle q total i s
  refine ⟨rfl, rfl, ?_, ?_⟩ <;> by_cases h : i < total - 1 <;> simp [optStep, h]

-- Claim C8 ------------------------------------------------------------------

/-- C8 counterexample: with participant 1 configured at temperature `0.5`,
the debate synthesis call still uses the fixed `0.6` — which is *not* lower
than participant 1's configured temperature, refuting the claim that the
synthesis temperature is lower than either participant's regardless of
configuration. -/
theorem C8_counterexample :
    ((run_debate cfgT okOracle "Q" 1).calls.getD 4 default).temp = 0.6 ∧
    ¬ (((run_debate cfgT okOracle "Q" 1).calls.getD 4 default).temp < cfgT.temperature1) := by
  constructor
  · rfl
  · have h : ((run_debate cfgT okOracle "Q" 1).calls.getD 4 default).temp = 0.6 := rfl
    rw [h]
    norm_num [cfgT]

/-- C8 amended: in both workflows the synthesis call is always issued at
the fixed temperature `0.6`, whatever the participants' configured
temperatures; `0.6` is lower than the participants' *default* temperature
`0.7`, but not necessarily lower than arbitrary configured ones. -/
theorem C8_synthesis_temperature :
    ∀ (cfg : Config) (oracle : Nat → Except String String) (q : String) (n : Nat),
      ((run_debate cfg oracle q n).calls.getLast?).map Call.temp = some 0.6 ∧
      ((run_optimization cfg oracle q n).calls.getLast?).map Call.temp = some 0.6 ∧
      (0.6 : ℚ) < defaultTemperature := by
  intro cfg oracle q n
  refine ⟨?_, ?_, by norm_num [defaultTemperature]⟩
  · simp [run_debate, lastAppend]
  · simp [run_optimization, lastAppend]

-- Claim C9 ------------------------------------------------------------------

/-- C9: persisting a session result is a deterministic function of the
result alone — writing it to two different destinations produces identical
contents, with no timestamp anywhere in the payload — and in the
human-readable rendering the final-answer turn contributes nothing to the
per-turn body (removing all turns labelled with the final role leaves the
body unchanged); the final answer appears only in the dedicated trailing
section. -/
theorem C9_persistence_deterministic :
    ∀ (r : DebateRun) (ro : OptRun) (f1 f2 : String),
      (save_debate r f1).2 = (save_debate r f2).2 ∧
      (save_optimization ro f1).2 = (save_optimization ro f2).2 ∧
      debateBody (r.conversation.filter (fun m => m.role != "最终结论"))
        = debateBody r.conversation ∧
      optBody (ro.conversation.filter (fun m => m.role != "最终优化答案"))
        = optBody ro.conversation ∧
      (save_debate r f1).2
        = "辩论主题: " ++ r.initial_question ++ "\n\n" ++ "===== 辩论过程 =====\n\n" ++
            debateBody r.conversation ++ "===== 最终结论 =====\n\n" ++ r.final_answer := by
  intro r ro f1 f2
  exact ⟨rfl, rfl, debateBody_skips_final r.conversation,
    optBody_skips_final ro.conversation, rfl⟩

-- Claim C10 -----------------------------------------------------------------

/-- C10: every acquisition call selects its client by comparing the
requested model to participant 1's identifier (`select_client`); when both
participants are configured with the same model identifier, every call of
both workflows — participant 2's turns and the synthesis call included —
therefore goes through client 1 (participant 1's API key and endpoint),
and client 2 is never used. -/
theorem C10_same_model_uses_client1 (cfg : Config) (oracle : Nat → Except String String)
    (q : String) (rounds iterations : Nat) (h : cfg.model1 = cfg.model2) :
    ((run_debate cfg oracle q rounds).calls.all
        (fun c => select_client cfg.model1 c.model == 1)) = true ∧
    ((run_optimization cfg oracle q iterations).calls.all
        (fun c => select_client cfg.model1 c.model == 1)) = true := by
  constructor
  · rw [List.all_eq_true]
    intro c hc
    rcases run_debate_calls_models cfg oracle q rounds c hc with h' | h'
    · simp [select_client, h']
    · simp [select_client, h', ← h]
  · rw [List.all_eq_true]
    intro c hc
    rcases run_optimization_calls_models cfg oracle q iterations c hc with h' | h'
    · simp [select_client, h']
    · simp [select_client, h', ← h]

/-- C10 witness at a concrete same-model configuration. -/
theorem C10_witness :
    ((run_debate cfgSame okOracle "Q" 1).calls.all
        (fun c => select_client cfgSame.model1 c.model == 1)) = true :=
  (C10_same_model_uses_client1 cfgSame okOracle "Q" 1 1 rfl).1

end AIDebate
